import Mathlib

/-!
Shallow embedding of `src/app.py` (a Flask digital-signage control panel)
and proofs of the specification's claims about it.

Modelling conventions:
* JSON documents are the inductive type `Json`; numbers are modelled as `Int`
  (no claim depends on non-integer numerics).
* The filesystem is `FS`: the five per-display config files
  (`data/config/pantalla{id}.json`, stored as parsed JSON documents, since
  `json.dump`/`json.load` is the only reader/writer), the generated pages
  (`data/screens/pantalla{id}/index.html`, stored as strings) and the list of
  uploaded asset filenames under the upload folder.
* The browser session is `Session` (the `logged_in` flag).
* Environment-driven configuration (admin password, extension allow-lists,
  upload naming inputs) is the record `Env`.  `Env` also carries two oracles:
  `renderOk` decides whether `render_template` raises, and `writeResult`
  fixes the outcome of `open(output_path, 'w'); f.write(html_content)`.
  Since mode `'w'` truncates the target as soon as `open` succeeds, a write
  that raises mid-way leaves a prefix of the new content (possibly empty) in
  place of the previous version; only a failure of `open` itself leaves the
  file untouched.
* Python `config.get(...)` is defined only on dicts: on any other stored
  JSON document it raises `AttributeError`, which `generate_screen` catches
  as a 500 and which surfaces as the framework's 500 page in `get_screens`.
* Flask's `<int:...>` URL converter matches only unsigned digit sequences, so
  route ids are `Nat`.
-/

/-- A JSON document.  Objects are association lists in insertion order. -/
inductive Json where
  | null : Json
  | bool (b : Bool) : Json
  | num (n : Int) : Json
  | str (s : String) : Json
  | arr (xs : List Json) : Json
  | obj (fields : List (String × Json)) : Json
deriving Repr

/-- `config.get(key)` on a parsed JSON object: first binding of `key`,
`none` when absent or when the document is not an object. -/
def jGet (j : Json) (key : String) : Option Json :=
  match j with
  | .obj fields => fields.lookup key
  | _ => none

/-- Python `str.lower()` (ASCII case folding suffices for extension lists). -/
def pyLower (s : String) : String :=
  (s.data.map Char.toLower).asString

/-- Python `filename.rsplit('.', 1)[1]`: the substring after the last dot
(meaningful only when the string contains a dot, as in `allowed_file`). -/
def extAfterLastDot (s : String) : String :=
  ((s.data.reverse.takeWhile (fun c => c ≠ '.')).reverse).asString

/-- `json.dumps` (modulo string escaping, which no claim depends on). -/
def dumpJson : Json → String
  | .null => "null"
  | .bool true => "true"
  | .bool false => "false"
  | .num n => toString n
  | .str s => "\"" ++ s ++ "\""
  | .arr xs => "[" ++ String.intercalate ", " (xs.attach.map (fun x => dumpJson x.1)) ++ "]"
  | .obj fields =>
      "\x7b" ++ String.intercalate ", "
        (fields.attach.map (fun f => "\"" ++ f.1.1 ++ "\": " ++ dumpJson f.1.2)) ++ "\x7d"
decreasing_by
  · have := List.sizeOf_lt_of_mem x.2
    simp_all; omega
  · rcases f with ⟨⟨a, b⟩, hf⟩
    have := List.sizeOf_lt_of_mem hf
    simp_all; omega

/-- The filesystem state the application reads and writes. -/
structure FS where
  /-- `data/config/pantalla{id}.json`, parsed; `none` = file absent. -/
  configFiles : Nat → Option Json
  /-- `data/screens/pantalla{id}/index.html`; `none` = file absent. -/
  screenFiles : Nat → Option String
  /-- filenames stored under `static/uploads/`, most recent first. -/
  uploads : List String

/-- The signed-cookie browser session. -/
structure Session where
  logged_in : Bool
deriving DecidableEq, Repr

/-- The body of an HTTP response. -/
inductive RespBody where
  | json (j : Json) : RespBody
  | text (s : String) : RespBody
  | redirectTo (loc : String) : RespBody
deriving Repr

/-- An HTTP response: status code and body. -/
structure Response where
  status : Nat
  body : RespBody
deriving Repr

/-- Flask `redirect(url_for(...))`: a 302 response to the given location. -/
def redirectResp (loc : String) : Response :=
  { status := 302, body := .redirectTo loc }

/-- A `jsonify({'error': msg}), code` response. -/
def jsonError (code : Nat) (msg : String) : Response :=
  { status := code, body := .json (.obj [("error", .str msg)]) }

/-- Outcome of the write step `open(output_path, 'w'); f.write(html_content)`
of page generation.  Mode `'w'` truncates the target file the moment `open`
succeeds, so the three possibilities are: the full new content is written;
`open` itself raises and the file is untouched; or `f.write` raises after
`chars` characters of the new content reached the truncated file. -/
inductive WriteResult where
  | success : WriteResult
  | openFail : WriteResult
  | writeFail (chars : Nat) : WriteResult
deriving DecidableEq, Repr

/-- Environment configuration plus the I/O oracles for page generation. -/
structure Env where
  /-- `ADMIN_PASSWORD = os.getenv('ADMIN_PASSWD')` (`none` if unset). -/
  adminPassword : Option String
  /-- `app.config['ALLOWED_EXTENSIONS']` (image allow-list). -/
  allowedExtensions : List String
  /-- `app.config['ALLOWED_VIDEO_EXTENSIONS']` (video allow-list). -/
  allowedVideoExtensions : List String
  /-- `werkzeug.utils.secure_filename` (library collaborator, kept abstract). -/
  secureFilename : String → String
  /-- `datetime.now().strftime('%Y%m%d_%H%M%S')` at the upload request. -/
  timestamp : String
  /-- whether `render_template('screen_base.html', ...)` succeeds. -/
  renderOk : Bool
  /-- outcome of writing the generated page to disk. -/
  writeResult : WriteResult

/-- `allowed_file(filename)`:
`'.' in filename and filename.rsplit('.', 1)[1].lower() in app.config['ALLOWED_EXTENSIONS']`. -/
def allowed_file (allowedExt : List String) (filename : String) : Bool :=
  filename.data.contains '.' && allowedExt.contains (pyLower (extAfterLastDot filename))

/-- `allowed_video(filename)`: same check against the video allow-list. -/
def allowed_video (allowedVideoExt : List String) (filename : String) : Bool :=
  filename.data.contains '.' && allowedVideoExt.contains (pyLower (extAfterLastDot filename))

/-- `load_screen_config(screen_id)`: the parsed config file if it exists,
otherwise the in-memory default `{'screen_id': screen_id, 'slides': []}`. -/
def load_screen_config (fs : FS) (screen_id : Nat) : Json :=
  match fs.configFiles screen_id with
  | some j => j
  | none => .obj [("screen_id", .num screen_id), ("slides", .arr [])]

/-- `save_screen_config(screen_id, config)`: overwrite
`data/config/pantalla{screen_id}.json` wholesale. -/
def save_screen_config (fs : FS) (screen_id : Nat) (config : Json) : FS :=
  { fs with configFiles := fun i => if i = screen_id then some config else fs.configFiles i }

/-- Python `len(...)` on a JSON value: defined for lists, strings and dicts,
a `TypeError` (modelled as `none`) otherwise. -/
def pyLen : Json → Option Nat
  | .arr xs => some xs.length
  | .str s => some s.length
  | .obj fields => some fields.length
  | _ => none

/-- Python `config.get(key, default)`: defined only on dicts — on any other
stored value `.get` raises `AttributeError` (modelled as `.error`). -/
def pyGet (config : Json) (key : String) (default : Json) : Except String Json :=
  match config with
  | .obj fields => .ok ((fields.lookup key).getD default)
  | _ => .error "AttributeError: object has no attribute get"

/-- Modelled from the spec: `templates/screen_base.html` is not in `src/`.
Per the spec the rendering "embeds the slide list as inline JSON data plus
the marquee flags"; the exact markup is immaterial to every claim. -/
def renderScreenTemplate (screen_id : Nat) (slides_json : String)
    (marquee_enabled : Json) (marquee_text : Json) : String :=
  "<!DOCTYPE html><html data-screen=\"" ++ toString screen_id
    ++ "\" data-marquee=\"" ++ dumpJson marquee_enabled
    ++ "\" data-marquee-text=\"" ++ dumpJson marquee_text
    ++ "\"><body><script>const slides = " ++ slides_json
    ++ ";</script></body></html>"

/-- `generate_screen_html(screen_id)`: load the config, extract slides and
marquee settings via `config.get` (which raises on a non-dict config),
render the template, then `open(output_path, 'w')` and write.  The result
pairs the raised exception or returned path with the filesystem after the
attempt: `'w'` truncates on open, so a mid-write failure leaves a prefix of
the new content in place of any previous version. -/
def generate_screen_html (env : Env) (fs : FS) (screen_id : Nat) :
    Except String String × FS :=
  let config := load_screen_config fs screen_id
  match pyGet config "slides" (.arr []),
        pyGet config "marquee_enabled" (.bool false),
        pyGet config "marquee_text" (.str "") with
  | .ok slides, .ok marquee_enabled, .ok marquee_text =>
      if env.renderOk = false then
        (.error "TemplateNotFound: screen_base.html", fs)
      else
        let html_content := renderScreenTemplate screen_id (dumpJson slides)
          marquee_enabled marquee_text
        let output_path := "data/screens/pantalla" ++ toString screen_id ++ "/index.html"
        match env.writeResult with
        | .success =>
            (.ok output_path,
             { fs with screenFiles :=
                 fun j => if j = screen_id then some html_content else fs.screenFiles j })
        | .openFail => (.error ("could not open " ++ output_path), fs)
        | .writeFail chars =>
            (.error ("could not write " ++ output_path),
             { fs with screenFiles :=
                 fun j => if j = screen_id then some ((html_content.data.take chars).asString)
                          else fs.screenFiles j })
  | .error e, _, _ => (.error e, fs)
  | _, .error e, _ => (.error e, fs)
  | _, _, .error e => (.error e, fs)

/-- Modelled from the spec: `templates/index.html` is not in `src/`;
the admin panel page returned by `GET /`. -/
def indexHtml : String :=
  "<!DOCTYPE html><html><body>Panel de administracion</body></html>"

/-- The inline login form literal returned by `GET /login`
(its exact markup is immaterial to every claim). -/
def loginFormHtml : String :=
  "<form method=post><h2>Panel de Control - Acceso</h2></form>"

/-- `POST /login`: compare the submitted form password with `ADMIN_PASSWORD`
by direct equality; on match set `session['logged_in'] = True` and redirect
to the admin panel, otherwise 401 plain text with the session untouched. -/
def login (env : Env) (sess : Session) (password : Option String) :
    Response × Session :=
  if password == env.adminPassword then
    (redirectResp "/", { logged_in := true })
  else
    ({ status := 401, body := .text "Contraseña incorrecta" }, sess)

/-- `GET /logout`: `session.pop('logged_in', None)` then redirect to login. -/
def logout (sess : Session) : Response × Session :=
  ((redirectResp "/login"), { sess with logged_in := false })

/-- `GET /` (inner handler): render the admin panel template. -/
def index (fs : FS) : Response × FS :=
  ({ status := 200, body := .text indexHtml }, fs)

/-- `GET /api/screens` (inner handler): summaries of the five displays.
`config.get` on a non-dict stored config raises `AttributeError`, and `len`
on a non-sized `slides` value raises `TypeError`; either surfaces as the
framework's 500 page. -/
def get_screens (fs : FS) : Response :=
  match (List.range' 1 5).mapM (fun i =>
      let config := load_screen_config fs i
      match pyGet config "slides" (.arr []) with
      | .error _ => none
      | .ok slides =>
          (pyLen slides).map (fun n =>
            Json.obj [("id", .num i), ("name", .str ("Pantalla " ++ toString i)),
                      ("slides_count", .num n), ("has_content", .bool (decide (n > 0)))])) with
  | some screens => { status := 200, body := .json (.arr screens) }
  | none => { status := 500, body := .text "Internal Server Error" }

/-- `GET /api/screen/<int:screen_id>` (inner handler). -/
def get_screen (fs : FS) (screen_id : Nat) : Response :=
  if screen_id < 1 ∨ screen_id > 5 then
    jsonError 400 "ID de pantalla inválido"
  else
    { status := 200, body := .json (load_screen_config fs screen_id) }

/-- `POST /api/screen/<int:screen_id>` (inner handler); `data` is the parsed
JSON request body (`request.json`). -/
def save_screen (fs : FS) (screen_id : Nat) (data : Json) : Response × FS :=
  if screen_id < 1 ∨ screen_id > 5 then
    (jsonError 400 "ID de pantalla inválido", fs)
  else
    ({ status := 200,
       body := .json (.obj [("success", .bool true),
                            ("message", .str "Configuración guardada")]) },
     save_screen_config fs screen_id data)

/-- `POST /api/upload` (inner handler); `fileField` is the filename of the
`'file'` entry of `request.files`, `none` when the field is absent.
(`if file and ...`: a `FileStorage` is truthy exactly when its filename is,
and the empty filename was already rejected, so `file` is truthy there.) -/
def upload_file (env : Env) (fs : FS) (fileField : Option String) :
    Response × FS :=
  match fileField with
  | none => (jsonError 400 "No se envió ningún archivo", fs)
  | some fname =>
    if fname = "" then
      (jsonError 400 "Nombre de archivo vacío", fs)
    else if allowed_file env.allowedExtensions fname then
      upload_save env fs fname "image"
    else if allowed_video env.allowedVideoExtensions fname then
      upload_save env fs fname "video"
    else
      (jsonError 400 "Tipo de archivo no permitido", fs)
where
  /-- the accepting tail of `upload_file`: sanitize, timestamp-prefix, save,
  and answer with the public URL and detected type. -/
  upload_save (env : Env) (fs : FS) (fname : String) (file_type : String) :
      Response × FS :=
    let filename := env.timestamp ++ "_" ++ env.secureFilename fname
    ({ status := 200,
       body := .json (.obj [("success", .bool true),
                            ("url", .str ("/static/uploads/" ++ filename)),
                            ("filename", .str filename),
                            ("type", .str file_type)]) },
     { fs with uploads := filename :: fs.uploads })

/-- `POST /api/generate/<int:screen_id>` (inner handler): validate the id,
run `generate_screen_html`, catch any exception as a 500 JSON error. -/
def generate_screen (env : Env) (fs : FS) (screen_id : Nat) : Response × FS :=
  if screen_id < 1 ∨ screen_id > 5 then
    (jsonError 400 "ID de pantalla inválido", fs)
  else
    match generate_screen_html env fs screen_id with
    | (.ok output_path, fs') =>
        ({ status := 200,
           body := .json (.obj [("success", .bool true),
                                ("message", .str "Presentación generada exitosamente"),
                                ("url", .str ("/pantalla" ++ toString screen_id)),
                                ("path", .str output_path)]) },
         fs')
    | (.error e, fs') => (jsonError 500 e, fs')

/-- `GET /pantalla<int:screen_id>` (public, no login guard): 404 for an id
out of 1–5 or an ungenerated display, otherwise the generated file verbatim. -/
def show_screen (fs : FS) (screen_id : Nat) : Response :=
  if screen_id < 1 ∨ screen_id > 5 then
    { status := 404, body := .text "Pantalla no encontrada" }
  else
    match fs.screenFiles screen_id with
    | none =>
        { status := 404,
          body := .text ("La pantalla " ++ toString screen_id
            ++ " aún no ha sido generada. Por favor, genera la presentación primero.") }
    | some content => { status := 200, body := .text content }

/-- The `@login_required` decorator: run the wrapped handler only when the
session carries the `logged_in` flag, otherwise redirect to `/login`. -/
def login_required (f : FS → Response × FS) (sess : Session) (fs : FS) :
    Response × FS :=
  if sess.logged_in then f fs else (redirectResp "/login", fs)

/-- One HTTP request to the application, with its parsed inputs. -/
inductive Req where
  | getLogin : Req
  | postLogin (password : Option String) : Req
  | getLogout : Req
  | getIndex : Req
  | getScreens : Req
  | getScreen (screen_id : Nat) : Req
  | postScreen (screen_id : Nat) (data : Json) : Req
  | postUpload (fileField : Option String) : Req
  | postGenerate (screen_id : Nat) : Req
  | getPantalla (screen_id : Nat) : Req

/-- The route layer: dispatch one request against the current session and
filesystem, producing the response and the successor states. -/
def handle (env : Env) (req : Req) (sess : Session) (fs : FS) :
    Response × Session × FS :=
  match req with
  | .getLogin => ({ status := 200, body := .text loginFormHtml }, sess, fs)
  | .postLogin password =>
      let (r, sess') := login env sess password
      (r, sess', fs)
  | .getLogout =>
      let (r, sess') := logout sess
      (r, sess', fs)
  | .getIndex =>
      let (r, fs') := login_required index sess fs
      (r, sess, fs')
  | .getScreens =>
      let (r, fs') := login_required (fun fs => (get_screens fs, fs)) sess fs
      (r, sess, fs')
  | .getScreen screen_id =>
      let (r, fs') := login_required (fun fs => (get_screen fs screen_id, fs)) sess fs
      (r, sess, fs')
  | .postScreen screen_id data =>
      let (r, fs') := login_required (fun fs => save_screen fs screen_id data) sess fs
      (r, sess, fs')
  | .postUpload fileField =>
      let (r, fs') := login_required (fun fs => upload_file env fs fileField) sess fs
      (r, sess, fs')
  | .postGenerate screen_id =>
      let (r, fs') := login_required (fun fs => generate_screen env fs screen_id) sess fs
      (r, sess, fs')
  | .getPantalla screen_id => (show_screen fs screen_id, sess, fs)

/-- The administrative routes: every `/api/*` route and `GET /`
(exactly those carrying the `@login_required` decorator). -/
def isAdminReq : Req → Bool
  | .getIndex => true
  | .getScreens => true
  | .getScreen _ => true
  | .postScreen _ _ => true
  | .postUpload _ => true
  | .postGenerate _ => true
  | _ => false

/-- Requests that only read configuration state (used for the frame claim). -/
def isLoadReq : Req → Bool
  | .getScreens => true
  | .getScreen _ => true
  | _ => false

/-- The document a *successful* generation run renders for `screen_id` from
the current configuration (for generation to reach the write, the stored
config — when present — must be a JSON object, on which `config.get` and
`jGet ... |>.getD` agree). -/
def generatedHtml (fs : FS) (screen_id : Nat) : String :=
  let config := load_screen_config fs screen_id
  renderScreenTemplate screen_id (dumpJson ((jGet config "slides").getD (.arr [])))
    ((jGet config "marquee_enabled").getD (.bool false))
    ((jGet config "marquee_text").getD (.str ""))

/-- The `type` field of a JSON response body (`none` for non-JSON bodies). -/
def respTypeField (r : Response) : Option Json :=
  match r.body with
  | .json j => jGet j "type"
  | _ => none

/-- A filesystem with no config files, no generated pages and no uploads
(the state right after first startup), used to instantiate the theorems. -/
def emptyFS : FS :=
  { configFiles := fun _ => none, screenFiles := fun _ => none, uploads := [] }

/-- A concrete environment used to instantiate the theorems: `jpg` is in both
allow-lists, `png` only in the image list, `mp4` only in the video list. -/
def envW : Env :=
  { adminPassword := some "hunter2"
    allowedExtensions := ["jpg", "png"]
    allowedVideoExtensions := ["mp4", "jpg"]
    secureFilename := fun s => s
    timestamp := "20260101_120000"
    renderOk := true
    writeResult := .success }

/-- `envW` with a write that raises before any character is written: the
target file has already been truncated to the empty string by `open`. -/
def envFW : Env := { envW with writeResult := .writeFail 0 }

/-- A filesystem whose display 3 holds a previously generated page. -/
def fsOld : FS :=
  { configFiles := fun _ => none
    screenFiles := fun j => if j = 3 then some "OLD" else none
    uploads := [] }

/-- A logged-in session, used to instantiate the theorems. -/
def sessIn : Session := { logged_in := true }

/-- A not-logged-in session, used to instantiate the theorems. -/
def sessOut : Session := { logged_in := false }

/-! ## Claims -/

/-- C4: for every display id in 1–5 whose config file does not exist,
`load_screen_config` succeeds and returns the default record whose `slides`
field is the empty list and whose `screen_id` field equals the id. -/
theorem C4_load_absent_default (fs : FS) (screen_id : Nat)
    (h1 : 1 ≤ screen_id) (h2 : screen_id ≤ 5)
    (habs : fs.configFiles screen_id = none) :
    jGet (load_screen_config fs screen_id) "slides" = some (.arr []) ∧
    jGet (load_screen_config fs screen_id) "screen_id" = some (.num screen_id) := by
  simp only [load_screen_config, habs]
  exact ⟨rfl, rfl⟩

/-- Witness for C4: display 3 on the post-startup filesystem. -/
theorem C4_witness :
    jGet (load_screen_config emptyFS 3) "slides" = some (.arr []) ∧
    jGet (load_screen_config emptyFS 3) "screen_id" = some (.num 3) :=
  C4_load_absent_default emptyFS 3 (by decide) (by decide) rfl

/-- C3: for every display id in 1–5 and every JSON value, saving and then
loading returns the same value — directly for the store functions, and
through the authenticated `POST /api/screen/{id}` then `GET /api/screen/{id}`
routes. -/
theorem C3_save_load_roundtrip (env : Env) (sess : Session) (fs : FS)
    (screen_id : Nat) (cfg : Json) (hlog : sess.logged_in = true)
    (h1 : 1 ≤ screen_id) (h2 : screen_id ≤ 5) :
    load_screen_config (save_screen_config fs screen_id cfg) screen_id = cfg ∧
    (handle env (.postScreen screen_id cfg) sess fs).1.status = 200 ∧
    (handle env (.getScreen screen_id) sess
        (handle env (.postScreen screen_id cfg) sess fs).2.2).1 =
      { status := 200, body := .json cfg } := by
  have hrange : ¬(screen_id = 0 ∨ 5 < screen_id) := by omega
  refine ⟨?_, ?_, ?_⟩
  · simp [load_screen_config, save_screen_config]
  · simp [handle, login_required, hlog, save_screen, hrange]
  · simp [handle, login_required, hlog, save_screen, get_screen, hrange,
      load_screen_config, save_screen_config]

/-- Witness for C3: display 2, a one-slide config, on the post-startup
filesystem with a logged-in session. -/
theorem C3_witness :
    load_screen_config
        (save_screen_config emptyFS 2 (.obj [("slides", .arr [.str "a.jpg"])])) 2 =
      .obj [("slides", .arr [.str "a.jpg"])] ∧
    (handle envW (.postScreen 2 (.obj [("slides", .arr [.str "a.jpg"])])) sessIn emptyFS).1.status = 200 ∧
    (handle envW (.getScreen 2) sessIn
        (handle envW (.postScreen 2 (.obj [("slides", .arr [.str "a.jpg"])])) sessIn emptyFS).2.2).1 =
      { status := 200, body := .json (.obj [("slides", .arr [.str "a.jpg"])]) } :=
  C3_save_load_roundtrip envW sessIn emptyFS 2 (.obj [("slides", .arr [.str "a.jpg"])])
    rfl (by decide) (by decide)

/-- Read-only requests hand the filesystem back unchanged. -/
lemma handle_loadReq_fs (env : Env) (req : Req) (sess : Session) (fs : FS)
    (h : isLoadReq req = true) : (handle env req sess fs).2.2 = fs := by
  cases req <;> simp [isLoadReq] at h <;>
    simp [handle, login_required] <;> split <;> rfl

/-- C10: loading never modifies persisted state — a single config-reading
request, and any sequence of them with no intervening save, leaves every
config file, generated page and uploaded asset exactly as it was. -/
theorem C10_loads_preserve_state (env : Env) (sess : Session) (fs : FS)
    (reqs : List Req) (h : ∀ r ∈ reqs, isLoadReq r = true) :
    (∀ r, isLoadReq r = true → (handle env r sess fs).2.2 = fs) ∧
    reqs.foldl (fun s r => (handle env r sess s).2.2) fs = fs := by
  refine ⟨fun r hr => handle_loadReq_fs env r sess fs hr, ?_⟩
  induction reqs generalizing fs with
  | nil => rfl
  | cons r rs ih =>
      have hr := h r (List.mem_cons_self r rs)
      have hrs : ∀ x ∈ rs, isLoadReq x = true :=
        fun x hx => h x (List.mem_cons_of_mem r hx)
      simp only [List.foldl_cons, handle_loadReq_fs env r sess fs hr]
      exact ih fs hrs

/-- Witness for C10: three consecutive config reads (including one with an
out-of-range id) on the post-startup filesystem with a logged-in session. -/
theorem C10_witness :
    (∀ r, isLoadReq r = true → (handle envW r sessIn emptyFS).2.2 = emptyFS) ∧
    List.foldl (fun s r => (handle envW r sessIn s).2.2) emptyFS
      [.getScreen 2, .getScreens, .getScreen 7] = emptyFS :=
  C10_loads_preserve_state envW sessIn emptyFS [.getScreen 2, .getScreens, .getScreen 7]
    (by intro r hr; fin_cases hr <;> rfl)

/-- C2: with a logged-in session, every id outside 1–5 makes each of
`GET /api/screen/{id}`, `POST /api/screen/{id}` and `POST /api/generate/{id}`
answer HTTP 400 with a JSON error body.  (Flask's `<int:...>` converter only
matches unsigned digit sequences, so the ids reaching these handlers are
naturals.) -/
theorem C2_invalid_id_400 (env : Env) (sess : Session) (fs : FS)
    (screen_id : Nat) (data : Json) (hlog : sess.logged_in = true)
    (hid : screen_id < 1 ∨ screen_id > 5) :
    (handle env (.getScreen screen_id) sess fs).1 =
      jsonError 400 "ID de pantalla inválido" ∧
    (handle env (.postScreen screen_id data) sess fs).1 =
      jsonError 400 "ID de pantalla inválido" ∧
    (handle env (.postGenerate screen_id) sess fs).1 =
      jsonError 400 "ID de pantalla inválido" := by
  have hid' : screen_id = 0 ∨ 5 < screen_id := by omega
  simp [handle, login_required, hlog, get_screen, save_screen, generate_screen, hid']

/-- Witness for C2: id 6 with a logged-in session. -/
theorem C2_witness :
    (handle envW (.getScreen 6) sessIn emptyFS).1 =
      jsonError 400 "ID de pantalla inválido" ∧
    (handle envW (.postScreen 6 .null) sessIn emptyFS).1 =
      jsonError 400 "ID de pantalla inválido" ∧
    (handle envW (.postGenerate 6) sessIn emptyFS).1 =
      jsonError 400 "ID de pantalla inválido" :=
  C2_invalid_id_400 envW sessIn emptyFS 6 .null rfl (by decide)

/-- C9: when an accepted upload's extension is in both the image and the
video allow-list, the reported type is `"image"` — the image check runs
first in `upload_file`. -/
theorem C9_image_precedence (env : Env) (sess : Session) (fs : FS) (f : String)
    (hlog : sess.logged_in = true) (hne : f ≠ "")
    (himg : allowed_file env.allowedExtensions f = true)
    (hvid : allowed_video env.allowedVideoExtensions f = true) :
    (handle env (.postUpload (some f)) sess fs).1.status = 200 ∧
    respTypeField (handle env (.postUpload (some f)) sess fs).1 =
      some (.str "image") := by
  simp [handle, login_required, hlog, upload_file, hne, himg,
    upload_file.upload_save, respTypeField, jGet, List.lookup]

/-- Witness for C9: `clip.jpg` with `jpg` in both allow-lists of `envW`. -/
theorem C9_witness :
    (handle envW (.postUpload (some "clip.jpg")) sessIn emptyFS).1.status = 200 ∧
    respTypeField (handle envW (.postUpload (some "clip.jpg")) sessIn emptyFS).1 =
      some (.str "image") :=
  C9_image_precedence envW sessIn emptyFS "clip.jpg" rfl (by decide) (by decide) (by decide)

/-- C8: a `POST /login` with any submitted password different from the
configured admin secret answers HTTP 401, leaves the (not-logged-in)
session's flag unset and the filesystem untouched, and a subsequent
`GET /api/screens` under that session still redirects to `/login`. -/
theorem C8_bad_password (env : Env) (sess : Session) (fs : FS)
    (password : Option String) (hne : password ≠ env.adminPassword)
    (hlog : sess.logged_in = false) :
    (handle env (.postLogin password) sess fs).1.status = 401 ∧
    (handle env (.postLogin password) sess fs).2.1.logged_in = false ∧
    (handle env (.postLogin password) sess fs).2.2 = fs ∧
    (handle env .getScreens
        (handle env (.postLogin password) sess fs).2.1
        (handle env (.postLogin password) sess fs).2.2).1 =
      redirectResp "/login" := by
  simp [handle, login, login_required, hne, hlog]

/-- Witness for C8: submitting `"wrong"` against `envW`'s secret from a
fresh session. -/
theorem C8_witness :
    (handle envW (.postLogin (some "wrong")) sessOut emptyFS).1.status = 401 ∧
    (handle envW (.postLogin (some "wrong")) sessOut emptyFS).2.1.logged_in = false ∧
    (handle envW (.postLogin (some "wrong")) sessOut emptyFS).2.2 = emptyFS ∧
    (handle envW .getScreens
        (handle envW (.postLogin (some "wrong")) sessOut emptyFS).2.1
        (handle envW (.postLogin (some "wrong")) sessOut emptyFS).2.2).1 =
      redirectResp "/login" :=
  C8_bad_password envW sessOut emptyFS (some "wrong") (by decide) rfl

/-- C7: a request to any administrative route (`GET /` and every `/api/*`
route) under a session without the `logged_in` flag is answered only by a
redirect to `/login`, with session and filesystem untouched; the public
`GET /pantalla{id}` route ignores the session entirely and never writes. -/
theorem C7_admin_requires_login (env : Env) (req : Req)
    (sess s1 s2 : Session) (fs : FS)
    (hadmin : isAdminReq req = true) (hlog : sess.logged_in = false) :
    handle env req sess fs = (redirectResp "/login", sess, fs) ∧
    (∀ screen_id,
      (handle env (.getPantalla screen_id) s1 fs).1 =
        (handle env (.getPantalla screen_id) s2 fs).1 ∧
      (handle env (.getPantalla screen_id) s1 fs).2.2 = fs) := by
  constructor
  · cases req <;> simp [isAdminReq] at hadmin <;>
      simp [handle, login_required, hlog]
  · intro screen_id
    exact ⟨rfl, rfl⟩

/-- Witness for C7: `GET /api/screens` from a fresh session, and the public
route for display 1 under both sessions. -/
theorem C7_witness :
    handle envW .getScreens sessOut emptyFS =
      (redirectResp "/login", sessOut, emptyFS) ∧
    (∀ screen_id,
      (handle envW (.getPantalla screen_id) sessIn emptyFS).1 =
        (handle envW (.getPantalla screen_id) sessOut emptyFS).1 ∧
      (handle envW (.getPantalla screen_id) sessIn emptyFS).2.2 = emptyFS) :=
  C7_admin_requires_login envW .getScreens sessOut sessIn sessOut emptyFS rfl rfl

/-- C5: with a logged-in session, `POST /api/upload` answers HTTP 400 exactly
when the `file` field is absent, the filename is empty, or the filename
passes neither `allowed_file` nor `allowed_video` (a filename without a dot
always failing both); an accepted upload reports type `"image"` when the
image allow-list matches and `"video"` when only the video allow-list does. -/
theorem C5_upload_validation (env : Env) (sess : Session) (fs : FS)
    (ff : Option String) (hlog : sess.logged_in = true) :
    ((handle env (.postUpload ff) sess fs).1.status = 400 ↔
      (ff = none ∨ ff = some "" ∨
        ∃ f, ff = some f ∧ allowed_file env.allowedExtensions f = false ∧
          allowed_video env.allowedVideoExtensions f = false)) ∧
    (∀ f, ff = some f → f.data.contains '.' = false →
      (handle env (.postUpload ff) sess fs).1.status = 400) ∧
    (∀ f, ff = some f → f ≠ "" → allowed_file env.allowedExtensions f = true →
      (handle env (.postUpload ff) sess fs).1.status = 200 ∧
      respTypeField (handle env (.postUpload ff) sess fs).1 = some (.str "image")) ∧
    (∀ f, ff = some f → f ≠ "" → allowed_file env.allowedExtensions f = false →
      allowed_video env.allowedVideoExtensions f = true →
      (handle env (.postUpload ff) sess fs).1.status = 200 ∧
      respTypeField (handle env (.postUpload ff) sess fs).1 = some (.str "video")) := by
  cases ff with
  | none =>
      refine ⟨by simp [handle, login_required, hlog, upload_file, jsonError], ?_, ?_, ?_⟩ <;>
        intro f hf <;> simp_all
  | some f =>
      by_cases hf : f = ""
      · subst hf
        refine ⟨by simp [handle, login_required, hlog, upload_file, jsonError], ?_, ?_, ?_⟩
        · intro g hg _
          simp [handle, login_required, hlog, upload_file, jsonError]
        · intro g hg hne
          simp at hg
          exact absurd hg.symm hne
        · intro g hg hne
          simp at hg
          exact absurd hg.symm hne
      · cases himg : allowed_file env.allowedExtensions f with
        | true =>
            have hstat :
                (handle env (.postUpload (some f)) sess fs).1.status = 200 ∧
                respTypeField (handle env (.postUpload (some f)) sess fs).1 =
                  some (.str "image") := by
              simp [handle, login_required, hlog, upload_file, hf, himg,
                upload_file.upload_save, respTypeField, jGet, List.lookup]
            refine ⟨?_, ?_, ?_, ?_⟩
            · rw [hstat.1]
              simp [hf, himg]
            · intro g hg hdot
              simp at hg
              subst hg
              rw [allowed_file, hdot] at himg
              simp at himg
            · intro g hg _ _
              simp at hg
              subst hg
              exact hstat
            · intro g hg _ himg' _
              simp at hg
              subst hg
              rw [himg'] at himg
              cases himg
        | false =>
            cases hvid : allowed_video env.allowedVideoExtensions f with
            | true =>
                have hstat :
                    (handle env (.postUpload (some f)) sess fs).1.status = 200 ∧
                    respTypeField (handle env (.postUpload (some f)) sess fs).1 =
                      some (.str "video") := by
                  simp [handle, login_required, hlog, upload_file, hf, himg, hvid,
                    upload_file.upload_save, respTypeField, jGet, List.lookup]
                refine ⟨?_, ?_, ?_, ?_⟩
                · rw [hstat.1]
                  simp [hf, himg, hvid]
                · intro g hg hdot
                  simp at hg
                  subst hg
                  rw [allowed_video, hdot] at hvid
                  simp at hvid
                · intro g hg _ himg'
                  simp at hg
                  subst hg
                  rw [himg'] at himg
                  cases himg
                · intro g hg _ _ _
                  simp at hg
                  subst hg
                  exact hstat
            | false =>
                have hstat :
                    (handle env (.postUpload (some f)) sess fs).1.status = 400 := by
                  simp [handle, login_required, hlog, upload_file, hf, himg, hvid,
                    jsonError]
                refine ⟨?_, ?_, ?_, ?_⟩
                · rw [hstat]
                  simp only [true_iff]
                  exact Or.inr (Or.inr ⟨f, rfl, himg, hvid⟩)
                · intro g hg _
                  exact hstat
                · intro g hg _ himg'
                  simp at hg
                  subst hg
                  rw [himg'] at himg
                  cases himg
                · intro g hg _ _ hvid'
                  simp at hg
                  subst hg
                  rw [hvid'] at hvid
                  cases hvid

/-- Witness for C5: `photo.JPG` is accepted as an image against `envW`
(`jpg` allowed, compared case-insensitively). -/
theorem C5_witness :
    (handle envW (.postUpload (some "photo.JPG")) sessIn emptyFS).1.status = 200 ∧
    respTypeField (handle envW (.postUpload (some "photo.JPG")) sessIn emptyFS).1 =
      some (.str "image") :=
  (C5_upload_validation envW sessIn emptyFS (some "photo.JPG") rfl).2.2.1
    "photo.JPG" rfl (by decide) (by decide)

/-- Counterexample to C1 as stated: under a logged-in session, generating
display 3 — whose previously generated page is `"OLD"` — with a write that
raises right after `open` truncated the file answers HTTP 500 (the exception
propagated), yet the previous version is not left intact: the file now holds
the empty string. -/
theorem C1_counterexample :
    fsOld.screenFiles 3 = some "OLD" ∧
    (handle envFW (.postGenerate 3) sessIn fsOld).1.status = 500 ∧
    (handle envFW (.postGenerate 3) sessIn fsOld).2.2.screenFiles 3 = some "" := by
  refine ⟨rfl, rfl, rfl⟩

/-- C1 (amended): for a display id in 1–5 under a logged-in session,
`POST /api/generate/{id}` either succeeds (HTTP 200) having written the
complete rendered document to that display's output slot — every other
generated page, every config file and the uploads left unchanged — or fails
(HTTP 500) with the config files, uploads and every other display's page
unchanged, while the display's own page is either untouched (the failure
occurred before `open`, e.g. a non-dict config, a template error, or `open`
itself raising) or a prefix of the new rendered document left behind by the
truncating write — so the previous version is *not* guaranteed intact. -/
theorem C1_generate_atomic_amended (env : Env) (sess : Session) (fs : FS)
    (screen_id : Nat) (hlog : sess.logged_in = true)
    (h1 : 1 ≤ screen_id) (h2 : screen_id ≤ 5) :
    ((handle env (.postGenerate screen_id) sess fs).1.status = 200 ∧
      (handle env (.postGenerate screen_id) sess fs).2.2.screenFiles screen_id =
        some (generatedHtml fs screen_id) ∧
      (∀ j, j ≠ screen_id →
        (handle env (.postGenerate screen_id) sess fs).2.2.screenFiles j =
          fs.screenFiles j) ∧
      (handle env (.postGenerate screen_id) sess fs).2.2.configFiles =
        fs.configFiles ∧
      (handle env (.postGenerate screen_id) sess fs).2.2.uploads = fs.uploads) ∨
    ((handle env (.postGenerate screen_id) sess fs).1.status = 500 ∧
      (∀ j, j ≠ screen_id →
        (handle env (.postGenerate screen_id) sess fs).2.2.screenFiles j =
          fs.screenFiles j) ∧
      (handle env (.postGenerate screen_id) sess fs).2.2.configFiles =
        fs.configFiles ∧
      (handle env (.postGenerate screen_id) sess fs).2.2.uploads = fs.uploads ∧
      ((handle env (.postGenerate screen_id) sess fs).2.2.screenFiles screen_id =
          fs.screenFiles screen_id ∨
        ∃ chars,
          (handle env (.postGenerate screen_id) sess fs).2.2.screenFiles screen_id =
            some (((generatedHtml fs screen_id).data.take chars).asString))) := by
  have hrange : ¬(screen_id = 0 ∨ 5 < screen_id) := by omega
  cases hcl : load_screen_config fs screen_id
  case obj fields =>
    cases hr : env.renderOk with
    | false =>
        right
        refine ⟨?_, ?_, ?_, ?_, Or.inl ?_⟩ <;>
          simp [handle, login_required, hlog, generate_screen, hrange,
            generate_screen_html, hcl, pyGet, hr, jsonError]
    | true =>
        cases hwr : env.writeResult with
        | success =>
            left
            refine ⟨?_, ?_, ?_, ?_, ?_⟩ <;>
              simp [handle, login_required, hlog, generate_screen, hrange,
                generate_screen_html, hcl, pyGet, hr, hwr, generatedHtml, jGet]
            intro j hj
            simp [hj]
        | openFail =>
            right
            refine ⟨?_, ?_, ?_, ?_, Or.inl ?_⟩ <;>
              simp [handle, login_required, hlog, generate_screen, hrange,
                generate_screen_html, hcl, pyGet, hr, hwr, jsonError]
        | writeFail chars =>
            right
            refine ⟨?_, ?_, ?_, ?_, Or.inr ⟨chars, ?_⟩⟩ <;>
              simp [handle, login_required, hlog, generate_screen, hrange,
                generate_screen_html, hcl, pyGet, hr, hwr, generatedHtml, jGet,
                jsonError]
            intro j hj
            simp [hj]
  all_goals
    right
    refine ⟨?_, ?_, ?_, ?_, Or.inl ?_⟩ <;>
      simp [handle, login_required, hlog, generate_screen, hrange,
        generate_screen_html, hcl, pyGet, jsonError]

/-- Witness for amended C1: generating display 3 on the post-startup
filesystem under `envW` (config access, render and write all succeed). -/
theorem C1_witness :
    ((handle envW (.postGenerate 3) sessIn emptyFS).1.status = 200 ∧
      (handle envW (.postGenerate 3) sessIn emptyFS).2.2.screenFiles 3 =
        some (generatedHtml emptyFS 3) ∧
      (∀ j, j ≠ 3 →
        (handle envW (.postGenerate 3) sessIn emptyFS).2.2.screenFiles j =
          emptyFS.screenFiles j) ∧
      (handle envW (.postGenerate 3) sessIn emptyFS).2.2.configFiles =
        emptyFS.configFiles ∧
      (handle envW (.postGenerate 3) sessIn emptyFS).2.2.uploads =
        emptyFS.uploads) ∨
    ((handle envW (.postGenerate 3) sessIn emptyFS).1.status = 500 ∧
      (∀ j, j ≠ 3 →
        (handle envW (.postGenerate 3) sessIn emptyFS).2.2.screenFiles j =
          emptyFS.screenFiles j) ∧
      (handle envW (.postGenerate 3) sessIn emptyFS).2.2.configFiles =
        emptyFS.configFiles ∧
      (handle envW (.postGenerate 3) sessIn emptyFS).2.2.uploads =
        emptyFS.uploads ∧
      ((handle envW (.postGenerate 3) sessIn emptyFS).2.2.screenFiles 3 =
          emptyFS.screenFiles 3 ∨
        ∃ chars,
          (handle envW (.postGenerate 3) sessIn emptyFS).2.2.screenFiles 3 =
            some (((generatedHtml emptyFS 3).data.take chars).asString))) :=
  C1_generate_atomic_amended envW sessIn emptyFS 3 rfl (by decide) (by decide)

/-- Counterexample to C6 as stated: starting from the empty filesystem, the
only generation attempt for display 3 fails (HTTP 500, the write raised
after truncation), yet `GET /pantalla3` afterwards answers HTTP 200, serving
the empty file the failed attempt left — not a page produced by any
successful generation. -/
theorem C6_counterexample :
    (handle envFW (.postGenerate 3) sessIn emptyFS).1.status = 500 ∧
    (handle envFW (.getPantalla 3) sessIn
        (handle envFW (.postGenerate 3) sessIn emptyFS).2.2).1 =
      { status := 200, body := .text "" } := by
  exact ⟨rfl, rfl⟩

/-- C6 (amended): `GET /pantalla{id}` answers 404 (plain text) exactly when
the id is outside 1–5 or the display's page file does not exist (a failed
mid-write generation counts as creating the file); for an in-range id with
an existing page file it answers 200 with the stored file verbatim; and
whenever `POST /api/generate/{id}` succeeds, the subsequent `GET` serves,
byte for byte, the file that generation just wrote. -/
theorem C6_pantalla_amended (env : Env) (sess : Session) (fs : FS)
    (screen_id : Nat) :
    ((show_screen fs screen_id).status = 404 ↔
      (screen_id < 1 ∨ 5 < screen_id ∨ fs.screenFiles screen_id = none)) ∧
    (∀ c, fs.screenFiles screen_id = some c → 1 ≤ screen_id → screen_id ≤ 5 →
      show_screen fs screen_id = { status := 200, body := .text c }) ∧
    ((handle env (.postGenerate screen_id) sess fs).1.status = 200 →
      ∃ c, (handle env (.postGenerate screen_id) sess fs).2.2.screenFiles screen_id
            = some c ∧
        (handle env (.getPantalla screen_id) sess
            (handle env (.postGenerate screen_id) sess fs).2.2).1 =
          { status := 200, body := .text c }) := by
  refine ⟨?_, ?_, ?_⟩
  · constructor
    · intro h404
      by_cases hrange : screen_id < 1 ∨ screen_id > 5
      · omega
      · cases hgen : fs.screenFiles screen_id with
        | none => exact Or.inr (Or.inr rfl)
        | some c =>
            rw [show_screen, if_neg hrange, hgen] at h404
            simp at h404
    · intro h
      rcases h with h | h | h
      · rw [show_screen, if_pos (Or.inl h)]
      · rw [show_screen, if_pos (Or.inr h)]
      · by_cases hrange : screen_id < 1 ∨ screen_id > 5
        · rw [show_screen, if_pos hrange]
        · rw [show_screen, if_neg hrange, h]
  · intro c hc h1 h2
    have hrange : ¬(screen_id < 1 ∨ screen_id > 5) := by omega
    rw [show_screen, if_neg hrange, hc]
  · intro h200
    cases hlog : sess.logged_in with
    | false => simp [handle, login_required, hlog, redirectResp] at h200
    | true =>
        by_cases hrange : screen_id = 0 ∨ 5 < screen_id
        · exfalso
          simp [handle, login_required, hlog, generate_screen, hrange,
            jsonError] at h200
        · cases hcl : load_screen_config fs screen_id with
          | obj fields =>
            cases hr : env.renderOk with
            | false =>
                exfalso
                simp [handle, login_required, hlog, generate_screen, hrange,
                  generate_screen_html, hcl, pyGet, hr, jsonError] at h200
            | true =>
                cases hwr : env.writeResult with
                | success =>
                    refine ⟨renderScreenTemplate screen_id
                        (dumpJson ((fields.lookup "slides").getD (.arr [])))
                        ((fields.lookup "marquee_enabled").getD (.bool false))
                        ((fields.lookup "marquee_text").getD (.str "")), ?_, ?_⟩ <;>
                      simp [handle, login_required, hlog, generate_screen, hrange,
                        generate_screen_html, hcl, pyGet, hr, hwr, show_screen]
                | openFail =>
                    exfalso
                    simp [handle, login_required, hlog, generate_screen, hrange,
                      generate_screen_html, hcl, pyGet, hr, hwr, jsonError] at h200
                | writeFail chars =>
                    exfalso
                    simp [handle, login_required, hlog, generate_screen, hrange,
                      generate_screen_html, hcl, pyGet, hr, hwr, jsonError] at h200
          | null =>
            exfalso
            simp [handle, login_required, hlog, generate_screen, hrange,
              generate_screen_html, hcl, pyGet, jsonError] at h200
          | bool b =>
            exfalso
            simp [handle, login_required, hlog, generate_screen, hrange,
              generate_screen_html, hcl, pyGet, jsonError] at h200
          | num n =>
            exfalso
            simp [handle, login_required, hlog, generate_screen, hrange,
              generate_screen_html, hcl, pyGet, jsonError] at h200
          | str s =>
            exfalso
            simp [handle, login_required, hlog, generate_screen, hrange,
              generate_screen_html, hcl, pyGet, jsonError] at h200
          | arr xs =>
            exfalso
            simp [handle, login_required, hlog, generate_screen, hrange,
              generate_screen_html, hcl, pyGet, jsonError] at h200

/-- Witness for amended C6: display 4 is 404 before any generation, and the
successful generation of display 3 under `envW` is served back verbatim. -/
theorem C6_witness :
    (show_screen emptyFS 4).status = 404 ∧
    (∃ c, (handle envW (.postGenerate 3) sessIn emptyFS).2.2.screenFiles 3
          = some c ∧
      (handle envW (.getPantalla 3) sessIn
          (handle envW (.postGenerate 3) sessIn emptyFS).2.2).1 =
        { status := 200, body := .text c }) :=
  ⟨(C6_pantalla_amended envW sessIn emptyFS 4).1.mpr (Or.inr (Or.inr rfl)),
   (C6_pantalla_amended envW sessIn emptyFS 3).2.2 rfl⟩
